import Mathlib

/-!
Shallow embedding of the task-manager server core.

Sources embedded:
* `server/storage.ts` (MemStorage: users/tasks as JS `Map`s with monotonic
  id counters) — from the repository documentation's verbatim listing.
* `server/routes.ts` — the task route handlers (GET/POST/PUT/DELETE
  /api/tasks, /api/tasks/:id).  The handlers below follow the actual
  source file, in which the POST handler passes the raw `taskData`
  (not the zod-parsed data) to `createTask`, and the PUT handler passes
  the raw `req.body` (not the zod-parsed data) to `updateTask`.
* `server/auth.ts` — the register route and the passport LocalStrategy
  verify callback.  Password hashing (scrypt with a random salt) is
  modelled as an abstract function parameter.

JS `Map` is modelled as an insertion-ordered association list: `set` on an
existing key replaces the value in place, `set` on a fresh key appends,
`delete` removes the entry, and value iteration follows insertion order.
Timestamps (`new Date()`) are modelled as a `Nat` supplied by the caller.
Zod validation of the task schemas (which pick only title/description/status,
silently stripping unknown keys such as `userId` rather than rejecting them)
is modelled by the `validInsertBody` / `validUpdateBody` predicates.
-/

set_option autoImplicit false

namespace TaskManager

/-- Lookup in an insertion-ordered association list (JS `Map.get`). -/
def mapGet {α : Type} : List (Nat × α) → Nat → Option α
  | [], _ => none
  | (k, v) :: rest, i => if k = i then some v else mapGet rest i

/-- JS `Map.set`: replace in place if the key exists, else append. -/
def mapSet {α : Type} : List (Nat × α) → Nat → α → List (Nat × α)
  | [], i, v => [(i, v)]
  | (k, w) :: rest, i, v =>
    if k = i then (k, v) :: rest else (k, w) :: mapSet rest i v

/-- JS `Map.delete`: remove the entry with the given key (silent no-op when
the key is absent). -/
def mapDelete {α : Type} : List (Nat × α) → Nat → List (Nat × α)
  | [], _ => []
  | (k, v) :: rest, i =>
    if k = i then mapDelete rest i else (k, v) :: mapDelete rest i

/-- A user record (`User` in `shared/schema.ts`): the stored `password`
field holds the salted hash produced at registration. -/
structure User where
  id : Nat
  name : String
  email : String
  password : String
deriving Repr, DecidableEq

/-- A task record as `MemStorage` actually stores it.  Because
`createTask` spreads the raw input object, the `title`, `description` and
`status` fields are whatever the input carried — in particular `status`
can be absent (`none`), even though the declared schema marks it
non-null with default "pending". -/
structure Task where
  id : Nat
  title : Option String
  description : Option String
  status : Option String
  userId : Nat
  createdAt : Nat
deriving Repr, DecidableEq

/-- The JSON body of a `POST /api/tasks` request.  A client may include a
`userId` field; the route's spread `taskData = { ...req.body, userId }`
always overrides it with the authenticated user's id. -/
structure InsertBody where
  title : Option String
  description : Option String
  status : Option String
  userId : Option Nat
deriving Repr, DecidableEq

/-- The JSON body of a `PUT /api/tasks/:id` request.  `userId` is an
unknown key for `updateTaskSchema`: zod validation strips it rather than
rejecting it, but the handler then passes the raw body to the store. -/
structure UpdateBody where
  title : Option String
  description : Option String
  status : Option String
  userId : Option Nat
deriving Repr, DecidableEq

/-- The `taskData` object built in the POST handler:
`{ ...req.body, userId: req.user.id }`. -/
structure TaskData where
  title : Option String
  description : Option String
  status : Option String
  userId : Nat
deriving Repr, DecidableEq

/-- Input to `createUser` (name, email and the already-hashed password). -/
structure InsertUser where
  name : String
  email : String
  password : String
deriving Repr, DecidableEq

/-- The `MemStorage` state: two JS `Map`s plus the two monotonic id
counters, both starting at 1 in the constructor. -/
structure MemStorage where
  users : List (Nat × User)
  tasks : List (Nat × Task)
  currentUserId : Nat
  currentTaskId : Nat
deriving Repr, DecidableEq

/-- The `MemStorage` constructor: empty maps, both counters at 1. -/
def MemStorage.init : MemStorage :=
  { users := [], tasks := [], currentUserId := 1, currentTaskId := 1 }

/-- `MemStorage.getUser`: `this.users.get(id)`. -/
def getUser (s : MemStorage) (id : Nat) : Option User :=
  mapGet s.users id

/-- `MemStorage.getUserByEmail`: iterate the map's values in insertion
order and return the first user whose email is exactly (case-sensitively)
equal to the argument. -/
def getUserByEmail (s : MemStorage) (email : String) : Option User :=
  (s.users.map Prod.snd).find? (fun u => u.email == email)

/-- `MemStorage.createUser`: take the next user id (post-increment),
store `{ ...insertUser, id }`, return the new user.  No email-uniqueness
check happens here. -/
def createUser (s : MemStorage) (iu : InsertUser) : User × MemStorage :=
  let id := s.currentUserId
  let user : User := { id := id, name := iu.name, email := iu.email, password := iu.password }
  (user, { s with users := mapSet s.users id user, currentUserId := id + 1 })

/-- `MemStorage.getTasksByUserId`: all stored tasks with the given
`userId`, in map-value (insertion) order. -/
def getTasksByUserId (s : MemStorage) (userId : Nat) : List Task :=
  (s.tasks.map Prod.snd).filter (fun t => t.userId == userId)

/-- `MemStorage.getTaskById`: `this.tasks.get(id)`. -/
def getTaskById (s : MemStorage) (id : Nat) : Option Task :=
  mapGet s.tasks id

/-- `MemStorage.createTask`: take the next task id (post-increment), set
`createdAt`, store `{ ...insertTask, id, createdAt }`.  The spread copies
the input's fields verbatim: nothing defaults `status` here. -/
def createTask (s : MemStorage) (d : TaskData) (now : Nat) : Task × MemStorage :=
  let id := s.currentTaskId
  let task : Task :=
    { id := id, title := d.title, description := d.description,
      status := d.status, userId := d.userId, createdAt := now }
  (task, { s with tasks := mapSet s.tasks id task, currentTaskId := id + 1 })

/-- The JS object spread `{ ...task, ...taskData }` used by `updateTask`:
every field present in the update body overrides the stored field — the
body's `userId`, when present, overrides the stored `userId`. -/
def mergeTask (t : Task) (b : UpdateBody) : Task :=
  { t with
    title := match b.title with | some x => some x | none => t.title
    description := match b.description with | some x => some x | none => t.description
    status := match b.status with | some x => some x | none => t.status
    userId := match b.userId with | some x => x | none => t.userId }

/-- `MemStorage.updateTask`: throw "Task not found" when the id is
absent; otherwise store and return `{ ...task, ...taskData }`. -/
def updateTask (s : MemStorage) (id : Nat) (b : UpdateBody) :
    Except String (Task × MemStorage) :=
  match getTaskById s id with
  | none => .error "Task not found"
  | some task =>
    let updatedTask := mergeTask task b
    .ok (updatedTask, { s with tasks := mapSet s.tasks id updatedTask })

/-- `MemStorage.deleteTask`: `this.tasks.delete(id)` — total, no error
when the id is absent. -/
def deleteTask (s : MemStorage) (id : Nat) : MemStorage :=
  { s with tasks := mapDelete s.tasks id }

/-- `insertTaskSchema.safeParse` succeeds iff the required `title` field
is present; `description` and `status` are optional and the unknown
`userId` key is stripped, not rejected. -/
def validInsertBody (b : InsertBody) : Bool :=
  b.title.isSome

/-- `updateTaskSchema.safeParse`: the schema is the same pick of
title/description/status (not a partial schema), so `title` is required;
unknown keys such as `userId` are stripped, not rejected. -/
def validUpdateBody (b : UpdateBody) : Bool :=
  b.title.isSome

/-- The JSON body of an HTTP response. -/
inductive ResponseBody where
  | task (t : Task)
  | taskList (ts : List Task)
  | user (u : User)
  | message (m : String)
  | empty
deriving Repr, DecidableEq

/-- An HTTP response: status code plus body. -/
structure Response where
  status : Nat
  body : ResponseBody
deriving Repr, DecidableEq

/-- `GET /api/tasks` (authenticated): the requester's tasks. -/
def getTasksRoute (s : MemStorage) (authUserId : Nat) : Response :=
  ⟨200, .taskList (getTasksByUserId s authUserId)⟩

/-- `POST /api/tasks` (authenticated): build
`taskData = { ...req.body, userId }` (the route's userId wins over any
client-supplied field), validate it with `insertTaskSchema`, then pass
the RAW `taskData` — not the parsed data — to `createTask`. -/
def postTaskRoute (s : MemStorage) (authUserId : Nat) (body : InsertBody)
    (now : Nat) : Response × MemStorage :=
  let taskData : TaskData :=
    { title := body.title, description := body.description,
      status := body.status, userId := authUserId }
  if validInsertBody body then
    let (task, s2) := createTask s taskData now
    (⟨201, .task task⟩, s2)
  else
    (⟨400, .message "Invalid task data"⟩, s)

/-- `GET /api/tasks/:id` (authenticated, numeric id): 404 when absent,
403 when the task's owner differs from the requester, else 200 + task. -/
def getTaskRoute (s : MemStorage) (authUserId taskId : Nat) : Response :=
  match getTaskById s taskId with
  | none => ⟨404, .message "Task not found"⟩
  | some task =>
    if task.userId ≠ authUserId then ⟨403, .message "Forbidden"⟩
    else ⟨200, .task task⟩

/-- `PUT /api/tasks/:id` (authenticated, numeric id): validate the body
first (400 on failure), then 404 when absent, 403 when not the owner,
else call `updateTask` with the RAW `req.body` — not the parsed data. -/
def putTaskRoute (s : MemStorage) (authUserId taskId : Nat)
    (body : UpdateBody) : Response × MemStorage :=
  if ¬ validUpdateBody body then
    (⟨400, .message "Invalid task data"⟩, s)
  else
    match getTaskById s taskId with
    | none => (⟨404, .message "Task not found"⟩, s)
    | some existingTask =>
      if existingTask.userId ≠ authUserId then
        (⟨403, .message "Forbidden"⟩, s)
      else
        match updateTask s taskId body with
        | .ok (updatedTask, s2) => (⟨200, .task updatedTask⟩, s2)
        | .error _ => (⟨500, .message "Failed to update task"⟩, s)

/-- `DELETE /api/tasks/:id` (authenticated, numeric id): 404 when
absent, 403 when not the owner, else delete and 204. -/
def deleteTaskRoute (s : MemStorage) (authUserId taskId : Nat) :
    Response × MemStorage :=
  match getTaskById s taskId with
  | none => (⟨404, .message "Task not found"⟩, s)
  | some existingTask =>
    if existingTask.userId ≠ authUserId then
      (⟨403, .message "Forbidden"⟩, s)
    else
      (⟨204, .empty⟩, deleteTask s taskId)

/-- The JSON body of a `POST /api/register` request. -/
structure RegisterBody where
  name : String
  email : String
  password : String
deriving Repr, DecidableEq

/-- `POST /api/register` (`server/auth.ts`): reject with 400 "Email
already in use" when `getUserByEmail` finds the email, else create the
user with the hashed password and answer 201 with the FULL user record
(`res.status(201).json(user)` — including the stored password hash). -/
def registerRoute (s : MemStorage) (hashPassword : String → String)
    (body : RegisterBody) : Response × MemStorage :=
  match getUserByEmail s body.email with
  | some _ => (⟨400, .message "Email already in use"⟩, s)
  | none =>
    let (user, s2) := createUser s
      { name := body.name, email := body.email,
        password := hashPassword body.password }
    (⟨201, .user user⟩, s2)

/-- Outcome of the passport LocalStrategy verify callback. -/
inductive LoginResult where
  | success (u : User)
  | failure (message : String)
deriving Repr, DecidableEq

/-- The LocalStrategy verify callback: look the email up; when the user
is missing OR the password comparison fails, fail with the single shared
message "Invalid email or password".  `comparePasswords` (scrypt-based)
is an abstract parameter. -/
def verifyLogin (comparePasswords : String → String → Bool)
    (s : MemStorage) (email password : String) : LoginResult :=
  match getUserByEmail s email with
  | none => .failure "Invalid email or password"
  | some user =>
    if comparePasswords password user.password then .success user
    else .failure "Invalid email or password"

/-- One store-level operation, used to quantify over arbitrary operation
sequences between two task creations. -/
inductive Op where
  | createOp (d : TaskData) (now : Nat)
  | updateOp (id : Nat) (b : UpdateBody)
  | deleteOp (id : Nat)
  | createUserOp (iu : InsertUser)
deriving Repr

/-- Apply one store operation to the state. -/
def applyOp (s : MemStorage) : Op → MemStorage
  | .createOp d now => (createTask s d now).2
  | .updateOp id b =>
    match updateTask s id b with
    | .ok (_, s2) => s2
    | .error _ => s
  | .deleteOp id => deleteTask s id
  | .createUserOp iu => (createUser s iu).2

/-- Run a sequence of store operations. -/
def runOps (s : MemStorage) : List Op → MemStorage
  | [] => s
  | op :: rest => runOps (applyOp s op) rest

/-! Basic lemmas about the JS `Map` model. -/

theorem mapGet_mapSet_self {α : Type} (m : List (Nat × α)) (k : Nat) (v : α) :
    mapGet (mapSet m k v) k = some v := by
  induction m with
  | nil => simp [mapSet, mapGet]
  | cons p rest ih =>
    obtain ⟨k', v'⟩ := p
    by_cases h : k' = k <;> simp [mapSet, mapGet, h, ih]

theorem mapGet_mapSet_ne {α : Type} (m : List (Nat × α)) (k i : Nat) (v : α)
    (h : i ≠ k) : mapGet (mapSet m k v) i = mapGet m i := by
  have hki : k ≠ i := fun hh => h hh.symm
  induction m with
  | nil => simp [mapSet, mapGet, hki]
  | cons p rest ih =>
    obtain ⟨k', v'⟩ := p
    by_cases hk : k' = k
    · subst hk
      simp [mapSet, mapGet, hki]
    · simp [mapSet, mapGet, hk, ih]

theorem mapGet_mapDelete_self {α : Type} (m : List (Nat × α)) (k : Nat) :
    mapGet (mapDelete m k) k = none := by
  induction m with
  | nil => simp [mapDelete, mapGet]
  | cons p rest ih =>
    obtain ⟨k', v'⟩ := p
    by_cases h : k' = k <;> simp [mapDelete, mapGet, h, ih]

theorem mapGet_mapDelete_ne {α : Type} (m : List (Nat × α)) (k i : Nat)
    (h : i ≠ k) : mapGet (mapDelete m k) i = mapGet m i := by
  have hki : k ≠ i := fun hh => h hh.symm
  induction m with
  | nil => simp [mapDelete, mapGet]
  | cons p rest ih =>
    obtain ⟨k', v'⟩ := p
    by_cases hk : k' = k
    · subst hk
      simp [mapDelete, mapGet, hki, ih]
    · simp [mapDelete, mapGet, hk, ih]

theorem mapDelete_mapDelete {α : Type} (m : List (Nat × α)) (k : Nat) :
    mapDelete (mapDelete m k) k = mapDelete m k := by
  induction m with
  | nil => simp [mapDelete]
  | cons p rest ih =>
    obtain ⟨k', v'⟩ := p
    by_cases h : k' = k <;> simp [mapDelete, h, ih]

theorem mapDelete_absent {α : Type} (m : List (Nat × α)) (k : Nat)
    (h : mapGet m k = none) : mapDelete m k = m := by
  induction m with
  | nil => simp [mapDelete]
  | cons p rest ih =>
    obtain ⟨k', v'⟩ := p
    by_cases hk : k' = k
    · simp [mapGet, hk] at h
    · simp [mapGet, hk] at h
      simp [mapDelete, hk, ih h]

theorem mapSet_absent_append {α : Type} (m : List (Nat × α)) (k : Nat) (v : α)
    (h : mapGet m k = none) : mapSet m k v = m ++ [(k, v)] := by
  induction m with
  | nil => simp [mapSet]
  | cons p rest ih =>
    obtain ⟨k', v'⟩ := p
    by_cases hk : k' = k
    · simp [mapGet, hk] at h
    · simp [mapGet, hk] at h
      simp [mapSet, hk, ih h]

theorem find?_append_of_some {α : Type} (p : α → Bool) (l1 l2 : List α)
    (w : α) (h : l1.find? p = some w) : (l1 ++ l2).find? p = some w := by
  induction l1 with
  | nil => simp [List.find?] at h
  | cons x rest ih =>
    rw [List.cons_append]
    cases hx : p x with
    | true =>
      simp only [List.find?, hx] at h ⊢
      exact h
    | false =>
      simp only [List.find?, hx] at h ⊢
      exact ih h

/-! Counter monotonicity: no store operation ever decreases `currentTaskId`,
and `createTask` hands out exactly the current counter value. -/

theorem createTask_id (s : MemStorage) (d : TaskData) (now : Nat) :
    (createTask s d now).1.id = s.currentTaskId := rfl

theorem createTask_counter (s : MemStorage) (d : TaskData) (now : Nat) :
    (createTask s d now).2.currentTaskId = s.currentTaskId + 1 := rfl

theorem currentTaskId_le_applyOp (s : MemStorage) (op : Op) :
    s.currentTaskId ≤ (applyOp s op).currentTaskId := by
  cases op with
  | createOp d now => simp [applyOp, createTask]
  | updateOp id b =>
    simp only [applyOp]
    cases h : updateTask s id b with
    | ok r =>
      obtain ⟨t, s2⟩ := r
      have : s2.currentTaskId = s.currentTaskId := by
        simp only [updateTask] at h
        cases hg : getTaskById s id with
        | none => simp [hg] at h
        | some task =>
          simp [hg] at h
          cases h.2
          rfl
      simp [this]
    | error e => simp
  | deleteOp id => simp [applyOp, deleteTask]
  | createUserOp iu => simp [applyOp, createUser]

theorem currentTaskId_le_runOps (s : MemStorage) (ops : List Op) :
    s.currentTaskId ≤ (runOps s ops).currentTaskId := by
  induction ops generalizing s with
  | nil => simp [runOps]
  | cons op rest ih =>
    exact le_trans (currentTaskId_le_applyOp s op) (ih (applyOp s op))

/-! Concrete fixtures used in counterexamples and witnesses. -/

/-- Concrete stand-in for the scrypt hash in concrete scenarios. -/
def demoHash (p : String) : String := p ++ "#h"

/-- Concrete stand-in for `comparePasswords`: hash the supplied password
and compare with the stored hash. -/
def demoCompare (supplied stored : String) : Bool := demoHash supplied == stored

/-- A concrete reachable store: users Ann (id 1) and Bob (id 2), one task
(id 1, "Write report") owned by Ann. -/
def demoStore : MemStorage :=
  { users :=
      [(1, { id := 1, name := "Ann", email := "ann@x.com", password := "pw1#h" }),
       (2, { id := 2, name := "Bob", email := "bob@x.com", password := "pw2#h" })],
    tasks :=
      [(1, { id := 1, title := some "Write report", description := none,
             status := some "pending", userId := 1, createdAt := 100 })],
    currentUserId := 3, currentTaskId := 2 }

/-- A concrete task-creation input for frame-property witnesses. -/
def demoTaskData : TaskData :=
  { title := some "Second task", description := none,
    status := some "pending", userId := 2 }

/-- A concrete valid update body (title only). -/
def demoUpdateBody : UpdateBody :=
  { title := some "New title", description := none, status := none, userId := none }

/-- The task produced by merging `demoUpdateBody` into demo task 1. -/
def demoMergedTask : Task :=
  { id := 1, title := some "New title", description := none,
    status := some "pending", userId := 1, createdAt := 100 }

/-- The store after updating demo task 1 with `demoUpdateBody`. -/
def demoUpdated : MemStorage :=
  { demoStore with tasks := [(1, demoMergedTask)] }

/-! Claim theorems. -/

/-- C1: the claim says a stored task's `userId` never changes; the code
violates it.  The PUT handler passes the raw request body — not the
zod-parsed data — to `updateTask`, so the body
`(title "Write report", userId 2)` passes validation (`updateTaskSchema`
strips the unknown `userId` key instead of rejecting it) and the spread
merge then rewrites the stored task's `userId` from 1 to 2; afterwards
the original owner is refused with 403 on her own task. -/
theorem put_changes_stored_userId :
    (putTaskRoute demoStore 1 1
        { title := some "Write report", description := none,
          status := none, userId := some 2 }).1.status = 200
    ∧ (getTaskById (putTaskRoute demoStore 1 1
        { title := some "Write report", description := none,
          status := none, userId := some 2 }).2 1).map Task.userId = some 2
    ∧ getTaskRoute (putTaskRoute demoStore 1 1
        { title := some "Write report", description := none,
          status := none, userId := some 2 }).2 1 1
      = ⟨403, .message "Forbidden"⟩ := by
  decide

/-- C2 counterexample: Bob (user 2, not the owner) sends
`PUT /api/tasks/1` for Ann's task with a body that fails validation
(missing title); the response status is 400 — not the 403 or 404 the
claim requires for every PUT by a non-owner. -/
theorem put_nonowner_invalid_body_400 :
    (putTaskRoute demoStore 2 1
        { title := none, description := none, status := none,
          userId := none }).1.status = 400
    ∧ ¬((putTaskRoute demoStore 2 1
        { title := none, description := none, status := none,
          userId := none }).1.status = 403
      ∨ (putTaskRoute demoStore 2 1
        { title := none, description := none, status := none,
          userId := none }).1.status = 404) := by
  decide

/-- C2 (amended): for an authenticated user `a` and a task owned by
`b ≠ a`, GET and DELETE answer 403 with a message body when the task
exists and 404 when it does not; PUT answers the same when its body
passes validation but 400 when the body fails validation; in every case
the response is an error message — never the task record — and the store
is left unchanged. -/
theorem nonowner_never_gets_task (s : MemStorage) (a b tid : Nat)
    (body : UpdateBody) (hab : a ≠ b) :
    (∀ tk, getTaskById s tid = some tk → tk.userId = b →
      getTaskRoute s a tid = ⟨403, .message "Forbidden"⟩
      ∧ deleteTaskRoute s a tid = (⟨403, .message "Forbidden"⟩, s)
      ∧ (validUpdateBody body = true →
          putTaskRoute s a tid body = (⟨403, .message "Forbidden"⟩, s))
      ∧ (validUpdateBody body = false →
          putTaskRoute s a tid body = (⟨400, .message "Invalid task data"⟩, s)))
    ∧ (getTaskById s tid = none →
      getTaskRoute s a tid = ⟨404, .message "Task not found"⟩
      ∧ deleteTaskRoute s a tid = (⟨404, .message "Task not found"⟩, s)
      ∧ (validUpdateBody body = true →
          putTaskRoute s a tid body = (⟨404, .message "Task not found"⟩, s))
      ∧ (validUpdateBody body = false →
          putTaskRoute s a tid body = (⟨400, .message "Invalid task data"⟩, s))) := by
  constructor
  · intro tk htk hown
    have hba : tk.userId ≠ a := by
      rw [hown]; exact fun hh => hab hh.symm
    refine ⟨?_, ?_, ?_, ?_⟩
    · simp [getTaskRoute, htk, hba]
    · simp [deleteTaskRoute, htk, hba]
    · intro hv; simp [putTaskRoute, hv, htk, hba]
    · intro hv; simp [putTaskRoute, hv]
  · intro hnone
    refine ⟨?_, ?_, ?_, ?_⟩
    · simp [getTaskRoute, hnone]
    · simp [deleteTaskRoute, hnone]
    · intro hv; simp [putTaskRoute, hv, hnone]
    · intro hv; simp [putTaskRoute, hv]

/-- C2 witness: the amended theorem instantiated at Bob requesting Ann's
task 1 in the demo store, with a valid update body. -/
theorem nonowner_never_gets_task_witness :
    getTaskRoute demoStore 2 1 = ⟨403, .message "Forbidden"⟩
    ∧ deleteTaskRoute demoStore 2 1 = (⟨403, .message "Forbidden"⟩, demoStore)
    ∧ putTaskRoute demoStore 2 1 demoUpdateBody
      = (⟨403, .message "Forbidden"⟩, demoStore) := by
  have h := (nonowner_never_gets_task demoStore 2 1 1 demoUpdateBody
      (by decide)).1
      { id := 1, title := some "Write report", description := none,
        status := some "pending", userId := 1, createdAt := 100 }
      (by decide) (by decide)
  exact ⟨h.1, h.2.1, h.2.2.1 (by decide)⟩

/-- C3 counterexample: registering `ann@x.com` twice — the second request
is rejected with status 400, not the 409 the claim states. -/
theorem register_duplicate_email_400_not_409 :
    (registerRoute (registerRoute MemStorage.init demoHash
        { name := "Ann", email := "ann@x.com", password := "pw1" }).2 demoHash
        { name := "Imposter", email := "ann@x.com", password := "pw2" }).1.status = 400
    ∧ ¬((registerRoute (registerRoute MemStorage.init demoHash
        { name := "Ann", email := "ann@x.com", password := "pw1" }).2 demoHash
        { name := "Imposter", email := "ann@x.com", password := "pw2" }).1.status = 409) := by
  decide

/-- C3 (amended): a registration whose email is already registered
(exact, case-sensitive match) is rejected with status 400
("Email already in use") and the store — in particular the existing user
record — is left entirely unchanged. -/
theorem register_duplicate_email_rejected (s : MemStorage)
    (hash : String → String) (b : RegisterBody) (w : User)
    (hw : getUserByEmail s b.email = some w) :
    registerRoute s hash b = (⟨400, .message "Email already in use"⟩, s) := by
  unfold registerRoute
  rw [hw]

/-- C3 witness: the amended theorem instantiated at a duplicate
registration of `ann@x.com` against the demo store. -/
theorem register_duplicate_email_rejected_witness :
    registerRoute demoStore demoHash
      { name := "Imposter", email := "ann@x.com", password := "zzz" }
      = (⟨400, .message "Email already in use"⟩, demoStore) :=
  register_duplicate_email_rejected demoStore demoHash
    { name := "Imposter", email := "ann@x.com", password := "zzz" }
    { id := 1, name := "Ann", email := "ann@x.com", password := "pw1#h" }
    (by decide)

/-- C4 counterexample: a successful registration answers 201 with the
full created user record, whose password field holds the stored salted
hash of "password123" — the claim says no password field is present and
the hash never appears in the response. -/
theorem register_response_contains_hash :
    (registerRoute MemStorage.init demoHash
        { name := "Ann", email := "ann@x.com", password := "password123" }).1
      = ⟨201, .user { id := 1, name := "Ann", email := "ann@x.com",
                      password := demoHash "password123" }⟩
    ∧ demoHash "password123" = "password123#h" := by
  decide

/-- C4 (amended): a successful registration answers 201 with the created
user serialized as-is: the password field is present and holds the salted
hash of the submitted password (the plaintext appears only through the
hash function, and is never stored directly). -/
theorem register_success_returns_full_user (s : MemStorage)
    (hash : String → String) (b : RegisterBody)
    (hnone : getUserByEmail s b.email = none) :
    (registerRoute s hash b).1
      = ⟨201, .user { id := s.currentUserId, name := b.name,
                      email := b.email, password := hash b.password }⟩ := by
  unfold registerRoute
  rw [hnone]
  rfl

/-- C4 witness: the amended theorem instantiated at a fresh registration
against the demo store. -/
theorem register_success_returns_full_user_witness :
    (registerRoute demoStore demoHash
        { name := "Carol", email := "carol@x.com", password := "pw3" }).1
      = ⟨201, .user { id := 3, name := "Carol", email := "carol@x.com",
                      password := "pw3#h" }⟩ :=
  register_success_returns_full_user demoStore demoHash
    { name := "Carol", email := "carol@x.com", password := "pw3" }
    (by decide)

/-- C5: the claim says an omitted status defaults to "pending"; the code
violates it.  The POST handler passes the raw `taskData` — not the parsed
data — to `createTask`, and `MemStorage.createTask` spreads its input
verbatim, so the schema default `status: "pending"` is never applied: the
round-trip `create(title := "Buy milk")` then `getById` yields a task
whose status field is absent (`none`), not "pending"; description absent
and createdAt set do hold as claimed. -/
theorem create_omitted_status_stays_absent :
    (postTaskRoute demoStore 1
        { title := some "Buy milk", description := none, status := none,
          userId := none } 200).1.status = 201
    ∧ getTaskById (postTaskRoute demoStore 1
        { title := some "Buy milk", description := none, status := none,
          userId := none } 200).2 2
      = some { id := 2, title := some "Buy milk", description := none,
               status := none, userId := 1, createdAt := 200 }
    ∧ (getTaskById (postTaskRoute demoStore 1
        { title := some "Buy milk", description := none, status := none,
          userId := none } 200).2 2).map Task.status = some none := by
  decide

/-- C6: task ids come from a counter that `createTask` hands out and
increments and that no store operation (create, update, delete, user
creation) ever decreases: for any two task creations with an arbitrary
sequence of store operations between them — deletions included — the two
ids are distinct and the second is strictly greater, so no task id is
ever reused. -/
theorem task_ids_strictly_increasing (s : MemStorage) (d1 d2 : TaskData)
    (now1 now2 : Nat) (ops : List Op) :
    (createTask s d1 now1).1.id
        < (createTask (runOps (createTask s d1 now1).2 ops) d2 now2).1.id
    ∧ (createTask s d1 now1).1.id
        ≠ (createTask (runOps (createTask s d1 now1).2 ops) d2 now2).1.id := by
  have h1 : (createTask s d1 now1).1.id = s.currentTaskId := rfl
  have h2 : (createTask s d1 now1).2.currentTaskId = s.currentTaskId + 1 := rfl
  have h3 := currentTaskId_le_runOps (createTask s d1 now1).2 ops
  have h4 : (createTask (runOps (createTask s d1 now1).2 ops) d2 now2).1.id
      = (runOps (createTask s d1 now1).2 ops).currentTaskId := rfl
  rw [h2] at h3
  constructor
  · rw [h1, h4]; omega
  · rw [h1, h4]; omega

/-- C7: the LocalStrategy verify callback fails with the identical result
— `failure "Invalid email or password"` — whether the email is not
registered at all or the email is registered and the password comparison
fails, so the two failure responses are indistinguishable in shape and
content. -/
theorem login_failures_identical (cmp : String → String → Bool)
    (s : MemStorage) (e1 p1 e2 p2 : String)
    (h1 : getUserByEmail s e1 = none)
    (h2 : ∀ u, getUserByEmail s e2 = some u → cmp p2 u.password = false) :
    verifyLogin cmp s e1 p1 = verifyLogin cmp s e2 p2
    ∧ verifyLogin cmp s e1 p1 = .failure "Invalid email or password" := by
  have hv1 : verifyLogin cmp s e1 p1 = .failure "Invalid email or password" := by
    unfold verifyLogin
    rw [h1]
  have hv2 : verifyLogin cmp s e2 p2 = .failure "Invalid email or password" := by
    unfold verifyLogin
    cases hg : getUserByEmail s e2 with
    | none => rfl
    | some u => simp [h2 u hg]
  exact ⟨hv1.trans hv2.symm, hv1⟩

/-- C7 witness: in the demo store, logging in with the unknown email
`nobody@x.com` and logging in as Ann with a wrong password produce the
same failure value. -/
theorem login_failures_identical_witness :
    verifyLogin demoCompare demoStore "nobody@x.com" "whatever"
      = verifyLogin demoCompare demoStore "ann@x.com" "wrongpw"
    ∧ verifyLogin demoCompare demoStore "nobody@x.com" "whatever"
      = .failure "Invalid email or password" := by
  have h2 : ∀ u, getUserByEmail demoStore "ann@x.com" = some u →
      demoCompare "wrongpw" u.password = false := by
    intro u hu
    have hx : getUserByEmail demoStore "ann@x.com"
        = some { id := 1, name := "Ann", email := "ann@x.com",
                 password := "pw1#h" } := by decide
    rw [hx] at hu
    cases hu
    decide
  exact login_failures_identical demoCompare demoStore
    "nobody@x.com" "whatever" "ann@x.com" "wrongpw" (by decide) h2

/-- C8: `deleteTask` is a total function (it can never error, for any id,
by construction), deleting the same id twice equals deleting it once, and
deleting an id that is not in the store leaves the store unchanged. -/
theorem deleteTask_idempotent (s : MemStorage) (id : Nat) :
    deleteTask (deleteTask s id) id = deleteTask s id
    ∧ (getTaskById s id = none → deleteTask s id = s) := by
  constructor
  · simp [deleteTask, mapDelete_mapDelete]
  · intro h
    show { s with tasks := mapDelete s.tasks id } = s
    rw [mapDelete_absent s.tasks id h]

/-- C8 witness: deleting the absent id 5 from the demo store twice is the
same as deleting it once, and leaves the store unchanged. -/
theorem deleteTask_idempotent_witness :
    deleteTask (deleteTask demoStore 5) 5 = deleteTask demoStore 5
    ∧ deleteTask demoStore 5 = demoStore :=
  ⟨(deleteTask_idempotent demoStore 5).1,
   (deleteTask_idempotent demoStore 5).2 (by decide)⟩

/-- All user-map keys lie strictly below the user id counter — true of
the constructor's empty state and preserved by `createUser`. -/
def usersWf (s : MemStorage) : Prop :=
  ∀ k u, mapGet s.users k = some u → k < s.currentUserId

/-- C9: `createUser` itself enforces no email uniqueness: called with an
email that is already registered it inserts a second record with that
email under a fresh id (one no existing record uses), and
`getUserByEmail` afterwards still returns the earliest-inserted matching
user, found by exact case-sensitive string comparison; the register route
alone performs the uniqueness check. -/
theorem createUser_allows_duplicate_email (s : MemStorage) (iu : InsertUser)
    (w : User) (hwf : usersWf s) (hw : getUserByEmail s iu.email = some w) :
    (createUser s iu).1.email = iu.email
    ∧ (createUser s iu).1.id = s.currentUserId
    ∧ mapGet (createUser s iu).2.users (createUser s iu).1.id
        = some (createUser s iu).1
    ∧ (∀ k, mapGet s.users k ≠ none → k ≠ (createUser s iu).1.id)
    ∧ getUserByEmail (createUser s iu).2 iu.email = some w := by
  have hfresh : mapGet s.users s.currentUserId = none := by
    cases hg : mapGet s.users s.currentUserId with
    | none => rfl
    | some u' => exact absurd (hwf _ _ hg) (lt_irrefl _)
  refine ⟨rfl, rfl, mapGet_mapSet_self _ _ _, ?_, ?_⟩
  · intro k hk hcontra
    rw [hcontra] at hk
    exact hk hfresh
  · have husers : (createUser s iu).2.users
        = s.users ++ [(s.currentUserId,
            { id := s.currentUserId, name := iu.name, email := iu.email,
              password := iu.password })] := by
      show mapSet s.users s.currentUserId _ = _
      exact mapSet_absent_append _ _ _ hfresh
    unfold getUserByEmail at hw ⊢
    rw [husers, List.map_append]
    exact find?_append_of_some _ _ _ _ hw

/-- C9 witness: creating a second user with Ann's email in the demo store
succeeds with the fresh id 3, and `getUserByEmail` still returns the
original Ann record. -/
theorem createUser_allows_duplicate_email_witness :
    (createUser demoStore
        { name := "Ann2", email := "ann@x.com", password := "q#h" }).1.email
      = "ann@x.com"
    ∧ (createUser demoStore
        { name := "Ann2", email := "ann@x.com", password := "q#h" }).1.id = 3
    ∧ getUserByEmail (createUser demoStore
        { name := "Ann2", email := "ann@x.com", password := "q#h" }).2 "ann@x.com"
      = some { id := 1, name := "Ann", email := "ann@x.com", password := "pw1#h" } := by
  have hwf : usersWf demoStore := by
    intro k u h
    simp only [demoStore] at h ⊢
    simp only [mapGet] at h
    split_ifs at h with hk1 hk2
    · omega
    · omega
  have h := createUser_allows_duplicate_email demoStore
    { name := "Ann2", email := "ann@x.com", password := "q#h" }
    { id := 1, name := "Ann", email := "ann@x.com", password := "pw1#h" }
    hwf (by decide)
  exact ⟨h.1, h.2.1, h.2.2.2.2⟩

/-- C10: the three task-store mutations only touch their own entry:
`createTask` and a successful `updateTask` leave every task entry with a
different id unchanged, `deleteTask` leaves every entry with a different
id unchanged, and all three leave the user map untouched. -/
theorem store_ops_frame (s : MemStorage) (d : TaskData) (now : Nat)
    (id : Nat) (b : UpdateBody) :
    (∀ k, k ≠ (createTask s d now).1.id →
        getTaskById (createTask s d now).2 k = getTaskById s k)
    ∧ (createTask s d now).2.users = s.users
    ∧ (∀ t s2, updateTask s id b = .ok (t, s2) →
        (∀ k, k ≠ id → getTaskById s2 k = getTaskById s k) ∧ s2.users = s.users)
    ∧ (∀ k, k ≠ id → getTaskById (deleteTask s id) k = getTaskById s k)
    ∧ (deleteTask s id).users = s.users := by
  refine ⟨?_, rfl, ?_, ?_, rfl⟩
  · intro k hk
    exact mapGet_mapSet_ne _ _ _ _ hk
  · intro t s2 h
    unfold updateTask at h
    cases hg : getTaskById s id with
    | none =>
      rw [hg] at h
      exact Except.noConfusion h
    | some task =>
      rw [hg] at h
      simp only [Except.ok.injEq, Prod.mk.injEq] at h
      obtain ⟨h1, h2⟩ := h
      subst h2
      constructor
      · intro k hk
        exact mapGet_mapSet_ne _ _ _ _ hk
      · rfl
  · intro k hk
    exact mapGet_mapDelete_ne _ _ _ hk

/-- C10 witness: the frame theorem instantiated at the demo store —
creating task 2 leaves task 1 and the users untouched, updating task 1
leaves the absent id 7 and the users untouched, and deleting task 1
leaves id 7 and the users untouched. -/
theorem store_ops_frame_witness :
    getTaskById (createTask demoStore demoTaskData 300).2 1 = getTaskById demoStore 1
    ∧ (createTask demoStore demoTaskData 300).2.users = demoStore.users
    ∧ (getTaskById demoUpdated 7 = getTaskById demoStore 7
       ∧ demoUpdated.users = demoStore.users)
    ∧ getTaskById (deleteTask demoStore 1) 7 = getTaskById demoStore 7
    ∧ (deleteTask demoStore 1).users = demoStore.users := by
  have h := store_ops_frame demoStore demoTaskData 300 1 demoUpdateBody
  have hu := h.2.2.1 demoMergedTask demoUpdated (by rfl)
  exact ⟨h.1 1 (by decide), h.2.1, ⟨hu.1 7 (by decide), hu.2⟩,
    h.2.2.2.1 7 (by decide), h.2.2.2.2⟩

end TaskManager
